import Mathlib

/-!
Shallow embedding of the build-orchestration scripts of the repository
(`build.py`, `MultipleAIApp/r.py`, `MultipleAIApp/b.py`) and proofs about
the argument-splitting, command-construction, phase-aggregation and
child-lifecycle behaviour they implement.
-/

namespace RunScript

/-- The separator token of `r.py`: the literal `'--'`. -/
def sep : String := "--"

/-- Embedding of `r.py` lines 17-24.  The input is the full `sys.argv`
(element 0 is the script path).  `'--' in sys.argv` is membership in the
whole list; `dash_index = sys.argv.index('--')` is the first occurrence;
`script_args = sys.argv[1:dash_index]`, `app_args = sys.argv[dash_index+1:]`;
with no separator, `script_args = sys.argv[1:]` and `app_args = []`. -/
def splitArgs (argv : List String) : List String × List String :=
  if sep ∈ argv then
    let dashIndex := List.indexOf sep argv
    ((argv.take dashIndex).drop 1, argv.drop (dashIndex + 1))
  else
    (argv.drop 1, [])

/-- Embedding of the fixed command prefix of `r.py` line 32. -/
def fixedCmd : List String :=
  ["dotnet", "run", "--project", "MultipleAIApp/MultipleAIApp.csproj",
   "--framework", "net8.0-desktop"]

/-- Embedding of `r.py` lines 31-41: `cmd` starts as the fixed prefix, the
script arguments are appended when non-empty, and `'--'` followed by the
app arguments is appended when the app arguments are non-empty. -/
def buildCmd (argv : List String) : List String :=
  let p := splitArgs argv
  let cmd0 := fixedCmd
  let cmd1 := if p.1.isEmpty then cmd0 else cmd0 ++ p.1
  if p.2.isEmpty then cmd1 else cmd1 ++ (sep :: p.2)

/-- Outcome of the single child process spawned by `r.py` lines 47-63, as
seen by the wrapper: the child ran to completion with an exit code, or a
`KeyboardInterrupt` arrived before `subprocess.Popen` was reached, or a
`KeyboardInterrupt` arrived during `process.wait()` while the child was
live (in which case the oracle records whether the child exits within the
5-second grace period of `process.wait(timeout=5)`). -/
inductive ChildEvent where
  | completed (code : Int)
  | interruptedBeforeSpawn
  | interruptedWaiting (exitsWithinTimeout : Bool)
deriving DecidableEq

/-- Observable trace of one invocation of `r.py`'s `main`: the wrapper's
exit status, whether `process.terminate()` was called, the timeout passed
to the post-terminate `process.wait` (none when no such wait happened),
and whether `process.kill()` was called. -/
structure RunTrace where
  exitCode : Int
  sentTerminate : Bool
  waitTimeout : Option Nat
  sentKill : Bool
deriving DecidableEq

/-- The grace period of `r.py` line 59: `process.wait(timeout=5)`. -/
def terminateTimeout : Nat := 5

/-- Embedding of `r.py` lines 46-70 (the child-lifecycle part of `main`).
A completed child with code `result != 0` reaches `sys.exit(result)` (line
54); code 0 falls through and the interpreter exits 0.  An interrupt during
`process.wait()` runs `terminate`, then `wait(timeout=5)`, then `kill` only
on `TimeoutExpired`, then `sys.exit(0)` (lines 55-63).  An interrupt before
the `Popen` call is caught at line 68 and runs `sys.exit(1)`. -/
def rMain (ev : ChildEvent) : RunTrace :=
  match ev with
  | ChildEvent.completed code =>
      if code ≠ 0 then ⟨code, false, none, false⟩ else ⟨0, false, none, false⟩
  | ChildEvent.interruptedBeforeSpawn => ⟨1, false, none, false⟩
  | ChildEvent.interruptedWaiting exitsWithinTimeout =>
      if exitsWithinTimeout then ⟨0, true, some terminateTimeout, false⟩
      else ⟨0, true, some terminateTimeout, true⟩

end RunScript

namespace BScript

/-- Embedding of `b.py`'s `main`.  Each `subprocess.run(..., check=True)`
raises `CalledProcessError` on a non-zero exit code; the handler at lines
36-38 runs `sys.exit(e.returncode)`.  Inputs are the two flags and the exit
codes the three possible child commands would return; the result is the
wrapper's exit status. -/
def bMain (cleanFlag runFlag : Bool) (cleanCode buildCode runCode : Int) : Int :=
  if cleanFlag ∧ cleanCode ≠ 0 then cleanCode
  else if buildCode ≠ 0 then buildCode
  else if runFlag ∧ runCode ≠ 0 then runCode
  else 0

end BScript

namespace BuildScript

/-- What happened when `subprocess.run` tried to start the child in
`build.py`'s `run_command`: the child was spawned and returned an exit
code, or spawning failed outright (the external tool does not exist or
cannot be executed), in which case `subprocess.run` raises an `OSError`
such as `FileNotFoundError`. -/
inductive SpawnOutcome where
  | spawned (code : Int)
  | spawnFailed
deriving DecidableEq

/-- Embedding of `build.py` lines 15-38 (`run_command`).  A spawned child
always yields a value carrying its return code: with `check=True` a
non-zero code raises `CalledProcessError`, which the handler catches and
returns (the caller reads `.returncode` off it either way); with
`check=False` the result object is returned directly.  A spawn failure
raises an error that is not a `CalledProcessError`, so it is not caught
here and propagates to the caller. -/
def run_command (check : Bool) (o : SpawnOutcome) : Except Unit Int :=
  match check, o with
  | _, SpawnOutcome.spawned code => Except.ok code
  | _, SpawnOutcome.spawnFailed => Except.error ()

/-- Embedding of `build.py` lines 144-179 (`run_application`) on the run
phase: when no runnable project is found the phase returns `False` (lines
165-166 and 177-179); otherwise `run_command(..., check=False)` is called
and the phase returns `result.returncode == 0` (line 176).  An error
propagating out of `run_command` propagates out of the phase. -/
def run_application (projectFound : Bool) (o : SpawnOutcome) : Except Unit Bool :=
  if projectFound then
    match run_command false o with
    | Except.ok code => Except.ok (code == 0)
    | Except.error e => Except.error e
  else
    Except.ok false

/-- The command-line flags of `build.py`'s `main` that drive phase
selection.  `run = none` models `--run` absent; `some ""` models a bare
`--run` (the `const=""` default); `some s` models `--run s`. -/
structure BuildArgs where
  clean : Bool
  test : Bool
  run : Option String
  skipBuild : Bool
deriving DecidableEq

/-- Oracle for the outcomes of the child commands `build.py` may execute:
whether `dotnet --version` succeeds, and whether the clean, build, test
and run phases would succeed if executed. -/
structure PhaseOutcomes where
  dotnetOk : Bool
  cleanOk : Bool
  buildOk : Bool
  testOk : Bool
  runOk : Bool
deriving DecidableEq

/-- Python truthiness of `args.run` in `if not args.run` (`build.py` lines
226 and 234): `None` and the empty string are falsy. -/
def runTruthy (r : Option String) : Bool :=
  match r with
  | none => false
  | some s => s ≠ ""

/-- Observable result of one invocation of `build.py`'s `main`: the exit
status, the printed summary (label and tick/cross per line, `build.py`
lines 245-251), and which of the four phases were actually executed. -/
structure BuildResult where
  exitCode : Nat
  summary : List (String × Bool)
  cleanAttempted : Bool
  buildAttempted : Bool
  testAttempted : Bool
  runAttempted : Bool
deriving DecidableEq

/-- Embedding of `build.py` lines 198-255 (`main` after argument parsing).
The control flow is followed branch for branch: the `dotnet --version`
check exits 1 on failure (lines 208-211); clean runs when requested and
its outcome is never consulted (lines 214-215); the three success flags
start `True` (lines 217-219); a failed build exits 1 early when `args.run`
is falsy (lines 222-227); tests run only when requested and the build
succeeded, and a test failure exits 1 early when `args.run` is falsy
(lines 229-235); the run phase runs only when `--run` was given and the
build succeeded (lines 237-242); the summary prints one line per requested
phase (lines 244-251); the final exit is 1 iff the build failed or tests
were requested and failed (lines 253-255). -/
def buildMain (args : BuildArgs) (o : PhaseOutcomes) : BuildResult :=
  if !o.dotnetOk then
    ⟨1, [], false, false, false, false⟩
  else
    let cleanAtt := args.clean
    if !args.skipBuild && !o.buildOk && !runTruthy args.run then
      ⟨1, [], cleanAtt, true, false, false⟩
    else
      let buildSuccess := args.skipBuild || o.buildOk
      if args.test && buildSuccess && !o.testOk && !runTruthy args.run then
        ⟨1, [], cleanAtt, !args.skipBuild, true, false⟩
      else
        let testSuccess := !(args.test && buildSuccess) || o.testOk
        let runAtt := args.run.isSome && buildSuccess
        let runSuccess := !runAtt || o.runOk
        let summary :=
          (if !args.skipBuild then [("Build", buildSuccess)] else []) ++
          (if args.test then [("Tests", testSuccess)] else []) ++
          (if args.run.isSome then [("Run", runSuccess)] else [])
        ⟨if !buildSuccess || (args.test && !testSuccess) then 1 else 0,
         summary, cleanAtt, !args.skipBuild, args.test && buildSuccess, runAtt⟩

end BuildScript

namespace RunScript

/-- Helper: a position holding `sep` with no earlier position holding `sep`
is exactly `List.indexOf sep`. -/
lemma indexOf_eq_of_first (l : List String) : ∀ i : Nat, l.get? i = some sep →
    (∀ j : Nat, j < i → l.get? j ≠ some sep) → sep ∈ l ∧ List.indexOf sep l = i := by
  induction l with
  | nil => intro i hi _; simp at hi
  | cons a t ih =>
    intro i hi hfirst
    cases i with
    | zero =>
      have ha : a = sep := by simpa using hi
      exact ⟨by simp [ha], by rw [List.indexOf_cons_eq _ ha]⟩
    | succ j =>
      have ha : a ≠ sep := by
        have h0 := hfirst 0 (Nat.succ_pos j)
        simpa using h0
      have ht : t.get? j = some sep := by simpa using hi
      have hf : ∀ k : Nat, k < j → t.get? k ≠ some sep := by
        intro k hk
        have := hfirst (k + 1) (Nat.succ_lt_succ hk)
        simpa using this
      obtain ⟨hm, hidx⟩ := ih j ht hf
      exact ⟨List.mem_cons_of_mem _ hm, by rw [List.indexOf_cons_ne _ ha, hidx]⟩

/-- Helper: the prefix of a list strictly before the first occurrence of
`sep` does not contain `sep`. -/
lemma not_mem_take_indexOf (l : List String) : sep ∉ l.take (List.indexOf sep l) := by
  induction l with
  | nil => simp
  | cons a t ih =>
    by_cases ha : a = sep
    · rw [List.indexOf_cons_eq _ ha]; simp
    · rw [List.indexOf_cons_ne _ ha, List.take_succ_cons]
      intro hmem
      rcases List.mem_cons.mp hmem with h | h
      · exact ha h.symm
      · exact ih h

/-- Helper: a list containing `sep` decomposes as the part before the first
occurrence, the separator itself, and the part after it. -/
lemma take_indexOf_append (l : List String) (h : sep ∈ l) :
    l.take (List.indexOf sep l) ++ sep :: l.drop (List.indexOf sep l + 1) = l := by
  induction l with
  | nil => simp at h
  | cons a t ih =>
    by_cases ha : a = sep
    · rw [List.indexOf_cons_eq _ ha]
      simp [ha]
    · have hm : sep ∈ t := by
        rcases List.mem_cons.mp h with h' | h'
        · exact absurd h'.symm ha
        · exact h'
      rw [List.indexOf_cons_ne _ ha, List.take_succ_cons]
      simpa [List.cons_append] using congrArg (a :: ·) (ih hm)

/-- Helper: on an argv whose leading element (the script path) is not the
separator and whose remaining tokens contain the separator, `splitArgs`
takes before and drops after the first occurrence among the tokens. -/
lemma splitArgs_cons_mem (name : String) (tokens : List String)
    (hname : name ≠ sep) (hm : sep ∈ tokens) :
    splitArgs (name :: tokens) =
      (tokens.take (List.indexOf sep tokens),
       tokens.drop (List.indexOf sep tokens + 1)) := by
  have hmem : sep ∈ name :: tokens := List.mem_cons_of_mem _ hm
  have hidx : List.indexOf sep (name :: tokens) = List.indexOf sep tokens + 1 :=
    List.indexOf_cons_ne _ hname
  rw [splitArgs, if_pos hmem, hidx]
  simp [List.take_succ_cons, List.drop_succ_cons]

/-- Helper: with no separator among the tokens, `splitArgs` returns all
tokens as script arguments and no app arguments. -/
lemma splitArgs_cons_not_mem (name : String) (tokens : List String)
    (hname : name ≠ sep) (hm : sep ∉ tokens) :
    splitArgs (name :: tokens) = (tokens, []) := by
  have hmem : sep ∉ name :: tokens := by
    intro hc
    rcases List.mem_cons.mp hc with h | h
    · exact hname h.symm
    · exact hm h
  rw [splitArgs, if_neg hmem]
  simp

end RunScript

namespace RunScript

/-- Helper: the separator never occurs among the script arguments produced
by `splitArgs` (they lie strictly before the first occurrence). -/
lemma sep_not_mem_scriptArgs (name : String) (tokens : List String)
    (hname : name ≠ sep) : sep ∉ (splitArgs (name :: tokens)).1 := by
  by_cases hm : sep ∈ tokens
  · rw [splitArgs_cons_mem name tokens hname hm]
    exact not_mem_take_indexOf tokens
  · rw [splitArgs_cons_not_mem name tokens hname hm]
    exact hm

/-- Helper: appending a list only when it is non-empty is plain appending. -/
lemma append_if_isEmpty (c l : List String) :
    (if l.isEmpty then c else c ++ l) = c ++ l := by
  cases l <;> simp

/-- C4: with the separator first occurring at position `i` of the token
list, the splitter yields script arguments `tokens[0:i]` and application
arguments `tokens[i+1:]` (later separators stay inside the latter), and
with no separator it yields all tokens as script arguments and an empty
application-argument list. -/
theorem C4_split_on_first_separator (name : String) (tokens : List String)
    (hname : name ≠ sep) :
    (∀ i : Nat, tokens.get? i = some sep →
      (∀ j : Nat, j < i → tokens.get? j ≠ some sep) →
      splitArgs (name :: tokens) = (tokens.take i, tokens.drop (i + 1)))
    ∧ (sep ∉ tokens → splitArgs (name :: tokens) = (tokens, [])) := by
  constructor
  · intro i hi hfirst
    obtain ⟨hm, hidx⟩ := indexOf_eq_of_first tokens i hi hfirst
    rw [splitArgs_cons_mem name tokens hname hm, hidx]
  · intro hm
    exact splitArgs_cons_not_mem name tokens hname hm

/-- Witness for C4 at the concrete argv `r.py a -- b -- c`. -/
theorem C4_split_on_first_separator_witness :
    splitArgs ["r.py", "a", "--", "b", "--", "c"] = (["a"], ["b", "--", "c"]) :=
  (C4_split_on_first_separator "r.py" ["a", "--", "b", "--", "c"]
    (by decide)).1 1 (by decide) (by decide)

/-- Counterexample to C5 as stated: on argv `r.py -- --` the pass-through
arguments are `["--"]`, and the constructed command contains the separator
token twice, not at most once. -/
theorem C5_counterexample :
    (splitArgs ["r.py", "--", "--"]).2 = ["--"] ∧
    List.count sep (buildCmd ["r.py", "--", "--"]) = 2 := by decide

/-- C5 amended: the wrapper itself inserts the separator exactly once when
the pass-through list is non-empty and never when it is empty; the total
number of separator occurrences in the constructed command is that one
insertion plus the separators already inside the pass-through arguments.
In particular the separator appears at all only if the pass-through list
is non-empty. -/
theorem C5_separator_emission (name : String) (tokens : List String)
    (hname : name ≠ sep) :
    List.count sep (buildCmd (name :: tokens)) =
      (if (splitArgs (name :: tokens)).2.isEmpty then 0
       else 1 + List.count sep (splitArgs (name :: tokens)).2) := by
  have hfix : List.count sep fixedCmd = 0 := by decide
  have hscript : List.count sep (splitArgs (name :: tokens)).1 = 0 :=
    List.count_eq_zero.mpr (sep_not_mem_scriptArgs name tokens hname)
  rw [buildCmd, append_if_isEmpty]
  by_cases h2 : (splitArgs (name :: tokens)).2.isEmpty
  · rw [if_pos h2, if_pos h2, List.count_append, hfix, hscript]
  · rw [if_neg h2, if_neg h2, List.count_append, List.count_append, hfix,
      hscript, List.count_cons_self]
    omega

/-- Witness for C5 (amended) at the concrete argv `r.py a -- b`. -/
theorem C5_separator_emission_witness :
    List.count sep (buildCmd ["r.py", "a", "--", "b"]) = 1 := by
  have h := C5_separator_emission "r.py" ["a", "--", "b"] (by decide)
  simpa using h

/-- C6: an interrupt during `process.wait()` with a live child causes a
graceful terminate, a wait bounded by the 5-second timeout, a forced kill
exactly when the child did not exit within the timeout, and exit status 0
either way; an interrupt before the child exists causes exit status 1. -/
theorem C6_interrupt_lifecycle (exitsWithinTimeout : Bool) :
    (rMain (ChildEvent.interruptedWaiting exitsWithinTimeout)).sentTerminate = true ∧
    (rMain (ChildEvent.interruptedWaiting exitsWithinTimeout)).waitTimeout = some 5 ∧
    (rMain (ChildEvent.interruptedWaiting exitsWithinTimeout)).sentKill = !exitsWithinTimeout ∧
    (rMain (ChildEvent.interruptedWaiting exitsWithinTimeout)).exitCode = 0 ∧
    (rMain ChildEvent.interruptedBeforeSpawn).exitCode = 1 := by
  cases exitsWithinTimeout <;> decide

/-- C10: when the separator occurs among the tokens and at least one token
follows its first occurrence, the constructed child command is the fixed
prefix followed by the original token list unchanged; when nothing follows
the first occurrence (the separator is the final token), the trailing
separator is dropped and the command is the fixed prefix followed by the
tokens without their last element. -/
theorem C10_roundtrip (name : String) (tokens : List String)
    (hname : name ≠ sep) (hm : sep ∈ tokens) :
    (tokens.drop (List.indexOf sep tokens + 1) ≠ [] →
      buildCmd (name :: tokens) = fixedCmd ++ tokens)
    ∧ (tokens.drop (List.indexOf sep tokens + 1) = [] →
      buildCmd (name :: tokens) = fixedCmd ++ tokens.dropLast) := by
  have hsplit := splitArgs_cons_mem name tokens hname hm
  have hdecomp := take_indexOf_append tokens hm
  constructor
  · intro hne
    rw [buildCmd, hsplit, append_if_isEmpty]
    have h2 : (tokens.drop (List.indexOf sep tokens + 1)).isEmpty = false := by
      cases hd : tokens.drop (List.indexOf sep tokens + 1)
      · exact absurd hd hne
      · simp
    rw [if_neg (by simp [h2])]
    rw [List.append_assoc, hdecomp]
  · intro he
    rw [buildCmd, hsplit, append_if_isEmpty]
    rw [if_pos (by simp [he])]
    have htok : tokens.take (List.indexOf sep tokens) ++ [sep] = tokens := by
      rw [he] at hdecomp
      simpa using hdecomp
    have hdl : tokens.dropLast = tokens.take (List.indexOf sep tokens) := by
      conv_lhs => rw [← htok]
      simp
    rw [hdl]

/-- Witness for C10 at the concrete argvs `r.py a -- b` and `r.py a --`. -/
theorem C10_roundtrip_witness :
    buildCmd ["r.py", "a", "--", "b"] = fixedCmd ++ ["a", "--", "b"] ∧
    buildCmd ["r.py", "a", "--"] = fixedCmd ++ ["a", "--"].dropLast :=
  ⟨(C10_roundtrip "r.py" ["a", "--", "b"] (by decide) (by decide)).1 (by decide),
   (C10_roundtrip "r.py" ["a", "--"] (by decide) (by decide)).2 (by decide)⟩

end RunScript

/-- C9: a delegated child command that completes with a non-zero exit code
makes the wrapper exit with that same code: in `r.py` via
`sys.exit(result)` after `process.wait()`, and in `b.py` via
`sys.exit(e.returncode)` when the build command raises
`CalledProcessError` (shown with the preceding clean command succeeding
and regardless of the flags and the run command's code). -/
theorem C9_exit_code_propagation (n : Int) (h : n ≠ 0) :
    (RunScript.rMain (RunScript.ChildEvent.completed n)).exitCode = n ∧
    (∀ cleanFlag runFlag : Bool, ∀ runCode : Int,
      BScript.bMain cleanFlag runFlag 0 n runCode = n) := by
  constructor
  · simp [RunScript.rMain, h]
  · intro cleanFlag runFlag runCode
    simp [BScript.bMain, h]

/-- Witness for C9 at the concrete exit code 3. -/
theorem C9_exit_code_propagation_witness :
    (RunScript.rMain (RunScript.ChildEvent.completed 3)).exitCode = 3 ∧
    (∀ cleanFlag runFlag : Bool, ∀ runCode : Int,
      BScript.bMain cleanFlag runFlag 0 3 runCode = 3) :=
  C9_exit_code_propagation 3 (by decide)

namespace BuildScript

/-- Counterexample to C3 as stated: when the child cannot be spawned the
run phase does not record a phase failure (it does not return `False`); the
error propagates out of the phase instead. -/
theorem C3_counterexample :
    run_application true SpawnOutcome.spawnFailed = Except.error () ∧
    run_application true SpawnOutcome.spawnFailed ≠ Except.ok false ∧
    run_application true SpawnOutcome.spawnFailed ≠ Except.ok true := by
  refine ⟨rfl, ?_, ?_⟩ <;> simp [run_application, run_command]

/-- C3 amended: for an executed phase whose child was spawned, the reported
result is failure exactly when the child's exit code is non-zero; when the
child could not be spawned, the raised error is not caught by the phase and
propagates (reaching the top-level handler of `main`), rather than being
recorded as a phase failure. -/
theorem C3_phase_failure_iff_nonzero (c : Int) :
    ((run_application true (SpawnOutcome.spawned c) = Except.ok false) ↔ c ≠ 0) ∧
    run_application true SpawnOutcome.spawnFailed = Except.error () := by
  constructor
  · simp [run_application, run_command]
  · rfl

/-- Counterexample to C1 as stated: build succeeds, run is requested,
executed and fails, yet the wrapper exits 0 — an executed phase failed but
the aggregate exit status is success. -/
theorem C1_counterexample :
    (buildMain ⟨false, false, some "demo", false⟩ ⟨true, true, true, true, false⟩).runAttempted = true ∧
    (buildMain ⟨false, false, some "demo", false⟩ ⟨true, true, true, true, false⟩).exitCode = 0 := by
  decide

/-- C1 amended: with the toolchain check passing, the wrapper exits
non-zero iff the build phase was executed and failed, or the test phase
was requested with a successful (or skipped) build and the tests failed;
clean and run failures never affect the aggregate exit status. -/
theorem C1_aggregate_exit (args : BuildArgs) (o : PhaseOutcomes)
    (h : o.dotnetOk = true) :
    ((buildMain args o).exitCode ≠ 0 ↔
      ((!args.skipBuild && !o.buildOk) ||
       (args.test && (args.skipBuild || o.buildOk) && !o.testOk)) = true) := by
  obtain ⟨c, t, r, sb⟩ := args
  obtain ⟨d, ck, b, tk, rk⟩ := o
  simp only at h
  subst h
  cases sb <;> cases t <;> cases b <;> cases tk <;>
    cases hr : runTruthy r <;>
      simp [buildMain, hr]

/-- Witness for C1 (amended): a failed build with nothing else requested
yields a non-zero exit status. -/
theorem C1_aggregate_exit_witness :
    (buildMain ⟨false, false, none, false⟩ ⟨true, true, false, true, true⟩).exitCode ≠ 0 :=
  (C1_aggregate_exit ⟨false, false, none, false⟩ ⟨true, true, false, true, true⟩ rfl).mpr
    (by decide)

/-- Counterexample to C2 as stated: build and run are both requested, the
build fails, and the run phase is not attempted (the aggregate result is
failure, but not regardless of a run outcome — no run happens at all). -/
theorem C2_counterexample :
    (buildMain ⟨false, false, some "demo", false⟩ ⟨true, true, false, true, true⟩).runAttempted = false ∧
    (buildMain ⟨false, false, some "demo", false⟩ ⟨true, true, false, true, true⟩).exitCode = 1 := by
  decide

/-- C2 amended: when build and run are both requested and the build phase
fails, the run phase is not attempted and the final aggregate result is
failure. -/
theorem C2_build_failure_skips_run (args : BuildArgs) (o : PhaseOutcomes)
    (h1 : o.dotnetOk = true) (h2 : args.skipBuild = false) (h3 : o.buildOk = false)
    (h4 : args.run.isSome = true) :
    (buildMain args o).runAttempted = false ∧ (buildMain args o).exitCode = 1 := by
  obtain ⟨c, t, r, sb⟩ := args
  obtain ⟨d, ck, b, tk, rk⟩ := o
  simp only at h1 h2 h3 h4
  subst h1; subst h2; subst h3
  cases t <;> cases tk <;> cases hr : runTruthy r <;> simp [buildMain, hr, h4]

/-- Witness for C2 (amended) at a concrete failing-build invocation with
`--run demo`. -/
theorem C2_build_failure_skips_run_witness :
    (buildMain ⟨false, false, some "demo", false⟩ ⟨true, true, false, true, true⟩).runAttempted = false ∧
    (buildMain ⟨false, false, some "demo", false⟩ ⟨true, true, false, true, true⟩).exitCode = 1 :=
  C2_build_failure_skips_run ⟨false, false, some "demo", false⟩
    ⟨true, true, false, true, true⟩ rfl rfl rfl rfl

/-- C7: when tests are requested and the build phase fails, the test phase
is not attempted and the wrapper's aggregate exit code is 1. -/
theorem C7_build_failure_blocks_test (args : BuildArgs) (o : PhaseOutcomes)
    (h1 : o.dotnetOk = true) (h2 : args.test = true) (h3 : args.skipBuild = false)
    (h4 : o.buildOk = false) :
    (buildMain args o).testAttempted = false ∧ (buildMain args o).exitCode = 1 := by
  obtain ⟨c, t, r, sb⟩ := args
  obtain ⟨d, ck, b, tk, rk⟩ := o
  simp only at h1 h2 h3 h4
  subst h1; subst h2; subst h3; subst h4
  cases tk <;> cases hr : runTruthy r <;> simp [buildMain, hr]

/-- Witness for C7 at a concrete invocation with `--test` and a failing
build. -/
theorem C7_build_failure_blocks_test_witness :
    (buildMain ⟨false, true, none, false⟩ ⟨true, true, false, true, true⟩).testAttempted = false ∧
    (buildMain ⟨false, true, none, false⟩ ⟨true, true, false, true, true⟩).exitCode = 1 :=
  C7_build_failure_blocks_test ⟨false, true, none, false⟩
    ⟨true, true, false, true, true⟩ rfl rfl rfl rfl

/-- C8: a skipped phase leaves no line in the summary and has no effect on
the aggregate exit code: under `--skip-build` no Build line appears and the
build outcome is irrelevant to the exit code; without `--test` no Tests
line appears and the test outcome is irrelevant; without `--run` no Run
line appears and the run outcome is irrelevant. -/
theorem C8_skipped_phase_frame (args : BuildArgs) (o : PhaseOutcomes) (b t r : Bool) :
    (args.skipBuild = true →
      (∀ x : Bool, ("Build", x) ∉ (buildMain args o).summary) ∧
      (buildMain args { o with buildOk := b }).exitCode = (buildMain args o).exitCode)
    ∧ (args.test = false →
      (∀ x : Bool, ("Tests", x) ∉ (buildMain args o).summary) ∧
      (buildMain args { o with testOk := t }).exitCode = (buildMain args o).exitCode)
    ∧ (args.run = none →
      (∀ x : Bool, ("Run", x) ∉ (buildMain args o).summary) ∧
      (buildMain args { o with runOk := r }).exitCode = (buildMain args o).exitCode) := by
  obtain ⟨c, tf, rr, sb⟩ := args
  obtain ⟨d, ck, bk, tk, rk⟩ := o
  refine ⟨?_, ?_, ?_⟩
  · intro h
    simp only at h
    subst h
    cases d <;> cases tf <;> cases tk <;> cases hr : runTruthy rr <;>
      cases hs : rr.isSome <;> simp [buildMain, hr, hs]
  · intro h
    simp only at h
    subst h
    cases d <;> cases sb <;> cases bk <;> cases hr : runTruthy rr <;>
      cases hs : rr.isSome <;> simp [buildMain, hr, hs]
  · intro h
    simp only at h
    subst h
    cases d <;> cases sb <;> cases bk <;> cases tf <;> cases tk <;>
      simp [buildMain, runTruthy]

/-- Witness for C8 at a concrete invocation with `--skip-build`, `--test`
and `--run demo`: no Build line appears, and flipping the build outcome
leaves the exit code unchanged. -/
theorem C8_skipped_phase_frame_witness :
    (∀ x : Bool, ("Build", x) ∉
      (buildMain ⟨false, true, some "demo", true⟩ ⟨true, true, true, true, true⟩).summary) ∧
    (buildMain ⟨false, true, some "demo", true⟩ ⟨true, true, false, true, true⟩).exitCode =
      (buildMain ⟨false, true, some "demo", true⟩ ⟨true, true, true, true, true⟩).exitCode :=
  (C8_skipped_phase_frame ⟨false, true, some "demo", true⟩
    ⟨true, true, true, true, true⟩ false false false).1 rfl

end BuildScript
